import Mathlib

/-!
Verification of the gch concurrent garbage collector and Ctrie
(string-interning HAMT) against its natural-language specification.

The development shallowly embeds the sequential behaviour of the C++
sources:

* `src/gch/gc.hpp` / `src/gch/gc.cpp` — colors, write barrier,
  handshake, allocation, collector cycle;
* `src/gch/ctrie.hpp` / `src/gch/ctrie.cpp` — the concurrent
  hash-array-mapped trie used as the weak interning set;
* `src/gch/queue.hpp` — the page-chunked deque of infants.

Machine integers (`std::intptr_t`, `std::size_t`, `std::uint64_t`) are
modelled as `Nat`; every value manipulated here is a small non-negative
constant or a 64-bit hash, and the sources use only `^`, `>>`, `&` and
`|` on them, which map to `^^^`, `>>>`, `&&&`, `|||`.  State mutation
is modelled by explicit state passing; functions that can fail (abort,
trap, or fall off the end of a non-void function) return `Option`.
-/

namespace Gch

/-- Color is `std::intptr_t` in the source (gc.hpp:68); only the small
non-negative encodings 0,1,2,3 ever occur, so we use `Nat`. -/
abbrev Color : Type := Nat

/-- Fixed gray encoding, `inline constexpr Color GRAY = 1` (gc.hpp:72). -/
def GRAY : Color := 1

/-- Red encoding for interned strings being torn down across two sweeps.
Modelled from the spec: the constant `RED` is used by `gc.cpp` and
`ctrie.cpp` but its declaration is in code missing from `src/` (the
`gc.hpp` in the snapshot predates it).  The spec (section 3) makes it "an
additional value" distinct from WHITE/GRAY/BLACK; with GRAY = 1 and the
white/black encodings {0, 2} we take RED = 3. -/
def RED : Color := 3

/-- Initial value of the process-wide white encoding,
`std::atomic<Color> white = 0` (gc.hpp:185). -/
def globalWhiteInit : Color := 0

/-- Initial value of the process-wide allocation color,
`std::atomic<Color> alloc = 0` (gc.hpp:186). -/
def globalAllocInit : Color := 0

/-- Black encoding computed by the collector loop:
`Color black = white ^ 1;` (gc.cpp:169). -/
def collectBlack (white : Color) : Color := white ^^^ 1

/-- Black encoding computed by the scan context:
`Color black() const { return white() ^ 2; }` (gc.hpp:256). -/
def scanContextBlack (white : Color) : Color := white ^^^ 2

/-- Color that `ScanContext::push` CASes a white object to:
`Color black = _white ^ 2;` (gc.hpp:448). -/
def scanPushBlack (white : Color) : Color := white ^^^ 2

/-- Color that `ScanContextPrivate::process` asserts for every popped
object: `assert(object && object->color.load(RELAXED) == (_white ^ 1));`
(gc.cpp:35). -/
def processAssertColor (white : Color) : Color := white ^^^ 1

/-- Desired color in the weak-upgrade CAS of `SNode::vinsertB`:
`Color desired = expected ^ 2;` with `expected` loaded from
`global.white` (ctrie.cpp:284-285). -/
def vinsertBDesired (white : Color) : Color := white ^^^ 2

/-- C1: the program uses two different black masks.  At the initial
white encoding 0 (gc.hpp:185) the collector loop's black (`white ^ 1`,
gc.cpp:169) coincides with the fixed GRAY = 1 and disagrees with the
scan context's black (`white ^ 2`, gc.hpp:256) and with the ctrie's
upgrade target (`expected ^ 2`, ctrie.cpp:285); moreover an object
painted by `ScanContext::push` (color `white ^ 2`, gc.hpp:448) fails the
`ScanContextPrivate::process` assertion, which expects `white ^ 1`
(gc.cpp:35).  So there is no single fixed mask relating the two
re-encoded colors, and the collector's BLACK is not distinct from GRAY. -/
theorem colors_mask_code_bug :
    collectBlack globalWhiteInit = GRAY ∧
    scanContextBlack globalWhiteInit ≠ collectBlack globalWhiteInit ∧
    vinsertBDesired globalWhiteInit ≠ collectBlack globalWhiteInit ∧
    scanPushBlack globalWhiteInit ≠ processAssertColor globalWhiteInit := by
  refine ⟨rfl, ?_, ?_, ?_⟩ <;> decide

/-!
Infants deque (`src/gch/queue.hpp`).  A `deque<T>` is a circular doubly
linked list of page-aligned nodes, each holding `COUNT` element slots; a
`T*` cursor into a node is recovered by masking (`_node_from`).  We model
a cursor as a page identifier together with the slot offset inside that
page (`0` is `node->begin()`, `COUNT` is `node->end()`), and the circular
page list as the number of live pages, with `node->prev` of page `i`
being page `(i + numPages - 1) % numPages`.
-/

/-- Number of element slots per page for `deque<Object*>`:
`COUNT = (PAGE - 2 * max(sizeof(T), sizeof(node_type*))) / sizeof(T)`
with `PAGE = 4096` and 8-byte pointers (queue.hpp:33-36). -/
def dequeCOUNT : Nat := (4096 - 2 * 8) / 8

/-- Cursor into the page-chunked deque: which page, and the offset of the
pointer within that page's `elements` array (so `idx = 0` is
`node->begin()` and `idx = dequeCOUNT` is `node->end()`). -/
structure DequePos where
  page : Nat
  idx : Nat
  deriving DecidableEq, Repr

/-- Previous page in the circular list of `numPages` pages
(queue.hpp:74-80 maintains `prev`/`next` as a circular doubly linked
list). -/
def pagePrev (numPages : Nat) (page : Nat) : Nat :=
  (page + numPages - 1) % numPages

/-- Embedding of `deque<T>::_advance` (queue.hpp:90-97): step the cursor
forward one element, hopping to `node->next->begin()` on reaching
`node->end()`.  This function ends in `return p;`, so it yields a value
on every path. -/
def dequeAdvance (numPages : Nat) (p : DequePos) : Option DequePos :=
  let p1 : DequePos := ⟨p.page, p.idx + 1⟩
  if p1.idx = dequeCOUNT then
    some ⟨(p.page + 1) % numPages, 0⟩
  else
    some p1

/-- Embedding of `deque<T>::_retreat` (queue.hpp:99-106).  The body
computes the predecessor cursor — `if (p == node->begin()) { p =
node->prev->end(); } --p;` — but then falls off the end of the non-void
function: unlike `_advance` there is no `return p;` statement, so no
value is returned on any path (undefined behaviour in C++); we model the
missing return as `none`. -/
def dequeRetreat (numPages : Nat) (p : DequePos) : Option DequePos :=
  let p1 : DequePos := if p.idx = 0 then ⟨pagePrev numPages p.page, dequeCOUNT⟩ else p
  let _p2 : DequePos := ⟨p1.page, p1.idx - 1⟩
  none

/-- Embedding of `deque<T>::_iterator::operator--` (queue.hpp:121-124):
`current = _retreat(current);` — the iterator takes whatever `_retreat`
returns as its new position. -/
def iteratorDecrement (numPages : Nat) (p : DequePos) : Option DequePos :=
  dequeRetreat numPages p

/-- C10: `deque::_retreat` never returns a value.  Its body computes the
predecessor of the cursor (crossing a page boundary when the cursor is at
`node->begin()`), but the function is missing the final `return p;` that
its mirror `_advance` has, so control falls off the end of a non-void
function on every path and `operator--` (which assigns `current =
_retreat(current)`) receives no value.  This contradicts the evident
intent (`_advance` ends in `return p;`, and `operator--` uses the result),
so the claim is right and the code is wrong. -/
theorem retreat_returns_nothing_code_bug :
    (∀ numPages p, dequeRetreat numPages p = none) ∧
    iteratorDecrement 3 ⟨0, 5⟩ = none ∧
    dequeAdvance 3 ⟨0, 5⟩ = some ⟨0, 6⟩ := by
  exact ⟨fun _ _ => rfl, rfl, rfl⟩

/-!
Write barrier (`src/gch/gc.hpp`).  Objects are identified by `Nat` ids;
the mutator-visible state is the global white encoding, the color of
every object, the thread-local dirty flag, and the pointer held by the
`AtomicStrong` slot under consideration (`none` models `nullptr`).
-/

/-- State visible to the barrier: `global.white`, the color field of
every object, `local.dirty`, and one `AtomicStrong` slot. -/
structure Mem where
  white : Color
  colors : Nat → Color
  dirty : Bool
  slot : Option Nat

/-- Embedding of `Object::shade` (gc.hpp:292-302): if the pointer is
non-null, CAS the object's color from the current `global.white` to
`GRAY`; on success set `local.dirty`. -/
def shade (m : Mem) (o : Option Nat) : Mem :=
  match o with
  | none => m
  | some i =>
      if m.colors i = m.white then
        { m with colors := fun j => if j = i then GRAY else m.colors j,
                 dirty := true }
      else m

/-- Embedding of `AtomicStrong<T>::store` (gc.hpp:323-328): shade the
incoming referent, exchange it into the slot, then shade the evicted
referent. -/
def atomicStrongStore (m : Mem) (desired : Option Nat) : Mem :=
  let m1 := shade m desired
  let old := m1.slot
  let m2 := { m1 with slot := desired }
  shade m2 old

/-- Embedding of `AtomicStrong<T>::compare_exchange_strong`
(gc.hpp:338-345): CAS the slot and, only when the CAS succeeds, shade
`expected` then `desired`.  Returns the success flag, the out-value of
`expected` (overwritten with the observed slot on failure), and the new
state. -/
def atomicStrongCompareExchangeStrong (m : Mem) (expected desired : Option Nat) :
    Bool × Option Nat × Mem :=
  if m.slot = expected then
    let m1 := { m with slot := desired }
    let m2 := shade m1 expected
    let m3 := shade m2 desired
    (true, expected, m3)
  else
    (false, m.slot, m)

theorem shade_white (m : Mem) (o : Option Nat) : (shade m o).white = m.white := by
  unfold shade
  cases o with
  | none => rfl
  | some i => dsimp only; split <;> rfl

theorem shade_slot (m : Mem) (o : Option Nat) : (shade m o).slot = m.slot := by
  unfold shade
  cases o with
  | none => rfl
  | some i => dsimp only; split <;> rfl

theorem shade_colors_self (m : Mem) (i : Nat) (h : m.colors i = m.white) :
    (shade m (some i)).colors i = GRAY := by
  unfold shade
  dsimp only
  rw [if_pos h]
  simp

theorem shade_colors_other (m : Mem) (o : Option Nat) (i : Nat) (h : o ≠ some i) :
    (shade m o).colors i = m.colors i := by
  unfold shade
  cases o with
  | none => rfl
  | some j =>
      dsimp only
      split
      · have : i ≠ j := fun hij => h (by rw [hij])
        simp [this]
      · rfl

theorem shade_colors_gray (m : Mem) (o : Option Nat) (i : Nat) (h : m.colors i = GRAY) :
    (shade m o).colors i = GRAY := by
  cases o with
  | none => exact h
  | some j =>
      by_cases hij : j = i
      · subst hij
        unfold shade
        dsimp only
        split
        · simp
        · exact h
      · rw [shade_colors_other m _ i (fun hc => hij (by injection hc))]
        exact h

/-- C6: the barrier discipline of `AtomicStrong`.  A `store` shades the
incoming referent, atomically exchanges it into the slot, then shades
the evicted referent: afterwards the slot holds `desired`, and both the
incoming and the evicted referent are GRAY if they were WHITE before.  A
successful `compare_exchange_strong` installs `desired` and shades both
`expected` (the evicted value) and `desired` (the installed value); a
failed one shades neither — it leaves the colors, the dirty flag and the
slot untouched, only reporting the observed slot value in `expected`. -/
theorem atomicStrong_barrier (m : Mem) (d e : Option Nat) :
    ((atomicStrongStore m d).slot = d) ∧
    (∀ i, d = some i → m.colors i = m.white → (atomicStrongStore m d).colors i = GRAY) ∧
    (∀ i, m.slot = some i → m.colors i = m.white →
      (atomicStrongStore m d).colors i = GRAY) ∧
    ((atomicStrongCompareExchangeStrong m e d).1 = true ↔ m.slot = e) ∧
    (m.slot = e →
      ((atomicStrongCompareExchangeStrong m e d).2.2.slot = d ∧
       (∀ i, e = some i → m.colors i = m.white →
         (atomicStrongCompareExchangeStrong m e d).2.2.colors i = GRAY) ∧
       (∀ i, d = some i → m.colors i = m.white →
         (atomicStrongCompareExchangeStrong m e d).2.2.colors i = GRAY))) ∧
    (m.slot ≠ e →
      atomicStrongCompareExchangeStrong m e d = (false, m.slot, m)) := by
  refine ⟨?_, ?_, ?_, ?_, ?_, ?_⟩
  · show (shade { shade m d with slot := d } (shade m d).slot).slot = d
    rw [shade_slot]
  · intro i hd hw
    show (shade { shade m d with slot := d } (shade m d).slot).colors i = GRAY
    subst hd
    exact shade_colors_gray _ _ _ (shade_colors_self m i hw)
  · intro i hs hw
    show (shade { shade m d with slot := d } (shade m d).slot).colors i = GRAY
    rw [shade_slot, hs]
    by_cases hdi : d = some i
    · subst hdi
      exact shade_colors_gray _ _ _ (shade_colors_self m i hw)
    · have h1 : (shade m d).colors i = m.colors i := shade_colors_other m d i hdi
      have h2 : ({ shade m d with slot := d } : Mem).colors i = m.white := by
        rw [h1]; exact hw
      have h3 : ({ shade m d with slot := d } : Mem).white = m.white := shade_white m d
      exact shade_colors_self _ i (by rw [h2, h3])
  · unfold atomicStrongCompareExchangeStrong
    split
    · simpa
    · simpa
  · intro hse
    unfold atomicStrongCompareExchangeStrong
    rw [if_pos hse]
    refine ⟨?_, ?_, ?_⟩
    · show (shade (shade { m with slot := d } e) d).slot = d
      rw [shade_slot, shade_slot]
    · intro i he hw
      subst he
      show (shade (shade { m with slot := d } (some i)) d).colors i = GRAY
      exact shade_colors_gray _ _ _ (shade_colors_self _ i hw)
    · intro i hd hw
      show (shade (shade { m with slot := d } e) d).colors i = GRAY
      rw [hd]
      by_cases hei : e = some i
      · subst hei
        exact shade_colors_gray _ _ _ (shade_colors_self _ i hw)
      · have h1 : (shade { m with slot := some i } e).colors i = m.colors i :=
          shade_colors_other _ e i hei
        have h2 : (shade { m with slot := some i } e).white = m.white :=
          shade_white _ e
        exact shade_colors_self _ i (by rw [h1, h2]; exact hw)
  · intro hse
    unfold atomicStrongCompareExchangeStrong
    rw [if_neg hse]

/-- Witness for `atomicStrong_barrier` at a concrete state: white = 0,
slot holding object 1, storing object 2, both objects white. -/
theorem atomicStrong_barrier_witness :
    ((atomicStrongStore ⟨0, fun _ => 0, false, some 1⟩ (some 2)).slot = some 2) ∧
    (atomicStrongStore ⟨0, fun _ => 0, false, some 1⟩ (some 2)).colors 2 = GRAY ∧
    (atomicStrongStore ⟨0, fun _ => 0, false, some 1⟩ (some 2)).colors 1 = GRAY := by
  have h := atomicStrong_barrier ⟨0, fun _ => 0, false, some 1⟩ (some 2) (some 1)
  exact ⟨h.1, h.2.1 2 rfl rfl, h.2.2.1 1 rfl rfl⟩

/-!
Mutator handshake (`src/gch/gc.cpp:109-153`).  The thread-local state a
handshake touches is `local.dirty` (already part of `Mem`),
`local.allocations` and `local.roots`; the channel state is the record
shared with the collector.  Roots are raw `Object*` values, possibly
null, hence `Option Nat`.
-/

/-- Thread-local mutator state besides the dirty flag (gc.hpp:228-233):
the infants deque `local.allocations` and the registered roots
`local.roots`. -/
structure LocalS where
  allocations : List Nat
  roots : List (Option Nat)

/-- Per-mutator channel record (gc.hpp:204-225). -/
structure ChannelS where
  abandoned : Bool
  pending : Bool
  dirty : Bool
  request_infants : Bool
  infants : List Nat

/-- Result of a `handshake` call: the updated local state, channel and
memory, and whether the mutator notified the collector's condition
variable. -/
structure HandshakeResult where
  loc : LocalS
  chan : ChannelS
  mem : Mem
  notified : Bool

/-- Shading of the locally-registered roots performed at the end of a
pending handshake: `for (Object* ref : local.roots) shade(ref);`
(gc.cpp:150-151). -/
def shadeRoots (m : Mem) (roots : List (Option Nat)) : Mem :=
  roots.foldl shade m

/-- Embedding of `handshake` (gc.cpp:109-153).  Under the channel lock:
if a request is pending, publish `local.dirty` into `channel->dirty` and
clear the local flag, swap the infants deques when
`channel->request_infants` is set, clear `request_infants` and
`pending`.  After releasing the lock, when a request had been pending,
notify the collector and shade every locally-registered root. -/
def handshake (l : LocalS) (ch : ChannelS) (m : Mem) : HandshakeResult :=
  let pending := ch.pending
  if pending then
    -- channel->dirty = local.dirty; local.dirty = false; then, when
    -- requested, channel->infants.swap(local.allocations) exchanges the
    -- two deques; channel->request_infants = false; channel->pending =
    -- false; after unlocking, notify and shade the roots
    ⟨{ l with allocations :=
        if ch.request_infants then ch.infants else l.allocations },
     { ch with dirty := m.dirty,
               infants := if ch.request_infants then l.allocations else ch.infants,
               request_infants := false,
               pending := false },
     shadeRoots { m with dirty := false } l.roots,
     true⟩
  else
    ⟨l, ch, m, false⟩

theorem shadeRoots_cons (m : Mem) (r : Option Nat) (rs : List (Option Nat)) :
    shadeRoots m (r :: rs) = shadeRoots (shade m r) rs := rfl

theorem shadeRoots_white (roots : List (Option Nat)) (m : Mem) :
    (shadeRoots m roots).white = m.white := by
  induction roots generalizing m with
  | nil => rfl
  | cons r rs ih => rw [shadeRoots_cons, ih, shade_white]

theorem shadeRoots_gray (roots : List (Option Nat)) (m : Mem) (i : Nat)
    (h : m.colors i = GRAY) : (shadeRoots m roots).colors i = GRAY := by
  induction roots generalizing m with
  | nil => exact h
  | cons r rs ih =>
      rw [shadeRoots_cons]
      exact ih _ (shade_colors_gray m r i h)

theorem shadeRoots_mem (roots : List (Option Nat)) (m : Mem) (i : Nat)
    (hmem : some i ∈ roots) (hw : m.colors i = m.white) :
    (shadeRoots m roots).colors i = GRAY := by
  induction roots generalizing m with
  | nil => cases hmem
  | cons r rs ih =>
      rw [shadeRoots_cons]
      by_cases hr : r = some i
      · subst hr
        exact shadeRoots_gray rs _ i (shade_colors_self m i hw)
      · have hmem' : some i ∈ rs := by
          cases hmem with
          | head => exact absurd rfl hr
          | tail _ h => exact h
        exact ih _ hmem' (by rw [shade_colors_other m r i hr, shade_white]; exact hw)

/-- C7: the pending handshake.  While holding the channel lock the
mutator publishes its thread-local dirty flag into the channel and clears
the local flag, exchanges its infants deque into the channel exactly when
infants were requested, and clears `pending` (and `request_infants`);
after releasing the lock it notifies the collector and shades every one
of its locally-registered roots — the memory after the handshake is the
cleared-dirty memory with the roots shaded, so every root that was WHITE
is GRAY afterwards.  The hypothesis `ch.infants = []` is the source's own
`assert(channel->infants.empty())` (gc.cpp:134). -/
theorem handshake_pending (l : LocalS) (ch : ChannelS) (m : Mem)
    (hp : ch.pending = true) (hi : ch.infants = []) :
    (handshake l ch m).notified = true ∧
    (handshake l ch m).chan.dirty = m.dirty ∧
    (handshake l ch m).chan.pending = false ∧
    (handshake l ch m).chan.request_infants = false ∧
    (ch.request_infants = true →
      (handshake l ch m).chan.infants = l.allocations ∧
      (handshake l ch m).loc.allocations = []) ∧
    (ch.request_infants = false →
      (handshake l ch m).chan.infants = ch.infants ∧
      (handshake l ch m).loc.allocations = l.allocations) ∧
    (handshake l ch m).mem = shadeRoots { m with dirty := false } l.roots ∧
    (∀ i, some i ∈ l.roots → m.colors i = m.white →
      (handshake l ch m).mem.colors i = GRAY) := by
  have heq : handshake l ch m =
      ⟨{ l with allocations :=
          if ch.request_infants then ch.infants else l.allocations },
       { ch with dirty := m.dirty,
                 infants := if ch.request_infants then l.allocations else ch.infants,
                 request_infants := false,
                 pending := false },
       shadeRoots { m with dirty := false } l.roots,
       true⟩ := by
    unfold handshake
    rw [hp]
    rfl
  rw [heq]
  refine ⟨rfl, rfl, rfl, rfl, ?_, ?_, rfl, ?_⟩
  · intro hreq
    rw [hreq]
    exact ⟨rfl, hi⟩
  · intro hreq
    rw [hreq]
    exact ⟨rfl, rfl⟩
  · intro i hmem hw
    exact shadeRoots_mem l.roots _ i hmem hw

/-- Witness for `handshake_pending`: pending handshake with infants
requested, one allocation, one white root. -/
theorem handshake_pending_witness :
    (handshake ⟨[4], [some 9]⟩ ⟨false, true, false, true, []⟩
        ⟨0, fun _ => 0, true, none⟩).notified = true ∧
    (handshake ⟨[4], [some 9]⟩ ⟨false, true, false, true, []⟩
        ⟨0, fun _ => 0, true, none⟩).chan.dirty = true ∧
    (handshake ⟨[4], [some 9]⟩ ⟨false, true, false, true, []⟩
        ⟨0, fun _ => 0, true, none⟩).chan.infants = [4] ∧
    (handshake ⟨[4], [some 9]⟩ ⟨false, true, false, true, []⟩
        ⟨0, fun _ => 0, true, none⟩).mem.colors 9 = GRAY := by
  have h := handshake_pending ⟨[4], [some 9]⟩ ⟨false, true, false, true, []⟩
    ⟨0, fun _ => 0, true, none⟩ rfl rfl
  exact ⟨h.1, h.2.1, (h.2.2.2.2.1 rfl).1,
    h.2.2.2.2.2.2.2 9 (List.mem_singleton.mpr rfl) rfl⟩

/-!
Allocation color (`src/gch/gc.hpp:304-307`, `src/gch/gc.cpp:209-211`).
-/

/-- Process-wide atomic color state (gc.hpp:181-201):
`global.white` and `global.alloc`. -/
structure GlobalState where
  white : Color
  alloc : Color

/-- Heap object as seen at construction: its identity and color field. -/
structure Obj where
  id : Nat
  color : Color
  deriving DecidableEq, Repr

/-- Embedding of the `Object` constructor (gc.hpp:304-307):
`Object() : color(global.alloc.load(RELAXED)) {
local.allocations.push_back(this); }` — the color is initialized from the
process-wide `alloc` read at construction time and the object is appended
to the creating thread's allocations (infants) deque. -/
def mkObject (g : GlobalState) (allocations : List Obj) (fresh : Nat) :
    Obj × List Obj :=
  let o : Obj := ⟨fresh, g.alloc⟩
  (o, allocations ++ [o])

/-- Embedding of step 1 of the collector cycle (gc.cpp:209-211):
`global.alloc.store(black, RELAXED)` with `black = white ^ 1`
(gc.cpp:169). -/
def collectorFlipAlloc (g : GlobalState) : GlobalState :=
  { g with alloc := collectBlack g.white }

/-- Embedding of the color remap publication (gc.cpp:546-547):
`std::swap(white, black); global.white.store(white, RELAXED);` — the only
other write to `global` state in the collector cycle; it does not touch
`alloc`. -/
def collectorPublishWhite (g : GlobalState) (w : Color) : GlobalState :=
  { g with white := w }

/-- C9: a newly constructed Object takes the process-wide `alloc` color
read at construction and is appended to the creating thread's infants
list; after the collector's step-1 flip (`global.alloc := black`, the
only write to `alloc` in the cycle — `global.white` republication leaves
it untouched), every construction yields the collector's black. -/
theorem object_allocation_color (g : GlobalState) (allocs : List Obj)
    (fresh : Nat) (w : Color) :
    ((mkObject g allocs fresh).1.color = g.alloc) ∧
    ((mkObject g allocs fresh).2 = allocs ++ [⟨fresh, g.alloc⟩]) ∧
    ((mkObject (collectorFlipAlloc g) allocs fresh).1.color
      = collectBlack g.white) ∧
    ((mkObject (collectorPublishWhite (collectorFlipAlloc g) w) allocs
        fresh).1.color = collectBlack g.white) := by
  exact ⟨rfl, rfl, rfl, rfl⟩

/-!
Interned-string S-nodes (`src/gch/ctrie.cpp`).  `SNode` is a `Leaf`
object: its only fields are the hash, the size and the character data,
plus the inherited color.
-/

/-- Shade context passed to `SNode::shade`.  Modelled from the spec: the
`ShadeContext` type with its `WHITE()`/`BLACK()` accessors is declared in
code missing from `src/` (the snapshot's `gc.hpp` predates it); per the
spec's color model, and matching the in-src `ScanContext` (gc.hpp:255-256)
and every use in `ctrie.cpp` (which builds one via `context._white =
global.white.load(RELAXED)`), it carries the current white encoding and
derives black as `white ^ 2`. -/
structure ShadeContext where
  _white : Color

/-- Current white encoding of a shade context. -/
def ShadeContext.WHITE (c : ShadeContext) : Color := c._white

/-- Current black encoding of a shade context, `white ^ 2` as in
`ScanContext::black` (gc.hpp:256). -/
def ShadeContext.BLACK (c : ShadeContext) : Color := c._white ^^^ 2

/-- Sweep context passed to `SNode::sweep` and `String::sweep`.
Modelled from the spec: like `ShadeContext`, declared in code missing
from `src/`; it carries the sweep's white encoding (`context._white =
white` in gc.cpp:519) with `BLACK()` again `white ^ 2`. -/
structure SweepContext where
  _white : Color

/-- Current white encoding of a sweep context. -/
def SweepContext.WHITE (c : SweepContext) : Color := c._white

/-- Current black encoding of a sweep context. -/
def SweepContext.BLACK (c : SweepContext) : Color := c._white ^^^ 2

/-- Embedding of `SNode::shade` (ctrie.cpp:222-228): CAS the color from
the context's WHITE directly to the context's BLACK — a Leaf shade, no
GRAY intermediate. -/
def snodeShade (ctx : ShadeContext) (c : Color) : Color :=
  if c = ctx.WHITE then ctx.BLACK else c

/-- Observable effect of an object's `scan` member. -/
inductive ScanEffect where
  | noop
  | trap
  deriving DecidableEq, Repr

/-- Embedding of `SNode::scan` (ctrie.cpp:234-237).  The comment in the
body says "no-op; SNode has no members", but the body consists of
`__builtin_trap();` — calling it aborts the process. -/
def snodeScanEffect : ScanEffect := ScanEffect.trap

/-- C5: `SNode::scan` is not a no-op.  Its body is `__builtin_trap()`
(ctrie.cpp:236), which aborts the process when invoked — e.g. when the
tracer pops an S-node that `TNode::scan` or `LNode::scan` pushed through
the in-src `ScanContext::push`, which enqueues every object whose
WHITE→BLACK CAS succeeds (gc.hpp:446-456) and later calls `scan` on it
(gc.cpp:31-38).  This contradicts the code's own comment ("no-op; SNode
has no members") and the spec.  The shade half of the claim does hold:
`SNode::shade` takes WHITE directly to BLACK, never to GRAY, as the
concrete evaluations show (white 0: 0 becomes 2, never 1; non-white
colors unchanged). -/
theorem snode_scan_trap_code_bug :
    snodeScanEffect = ScanEffect.trap ∧
    snodeScanEffect ≠ ScanEffect.noop ∧
    snodeShade ⟨0⟩ 0 = 2 ∧
    snodeShade ⟨0⟩ 0 ≠ GRAY ∧
    snodeShade ⟨0⟩ GRAY = GRAY ∧
    snodeShade ⟨0⟩ 2 = 2 := by
  refine ⟨rfl, ?_, rfl, ?_, rfl, rfl⟩ <;> decide

/-- Per-object decision taken by `SNode::sweep`. -/
inductive SweepAction where
  | removedFromCtrie (sid : Nat)
  | retained
  | deleted
  deriving DecidableEq, Repr

/-- Embedding of `SNode::sweep` (ctrie.cpp:243-269) for the S-node with
identity `sid` and current color `c`: CAS the color from the context's
WHITE to RED; if the CAS won (the color was WHITE), call
`global_string_ctrie->remove(this)` — removal of exactly this node by
identity (`SNode::vremoveB` bails out unless `this == k`,
ctrie.cpp:319-321) — and return `false` without deleting memory; if the
color was BLACK, retain and return `false`; if it was RED (second
sweep), `delete this` and return `true`; any other color hits
`abort()`, modelled as `none`. -/
def snodeSweep (ctx : SweepContext) (sid : Nat) (c : Color) :
    Option (Color × SweepAction × Bool) :=
  if c = ctx.WHITE then
    some (RED, SweepAction.removedFromCtrie sid, false)
  else if c = ctx.BLACK then
    some (c, SweepAction.retained, false)
  else if c = RED then
    some (c, SweepAction.deleted, true)
  else
    none

/-- C4: the three-colored sweep protocol for interned-string S-nodes.
With any of the white encodings the collector uses (0 or 2): a WHITE
S-node is CAS'd WHITE→RED and, having won, is removed from the Ctrie by
its own identity and not freed (`false` = stays in the collector's
list); a BLACK S-node is retained; a RED S-node (second sweep) has its
memory deleted (`true`). -/
theorem snode_sweep_protocol (w : Color) (sid : Nat) (hw : w = 0 ∨ w = 2) :
    (snodeSweep ⟨w⟩ sid (SweepContext.WHITE ⟨w⟩)
      = some (RED, SweepAction.removedFromCtrie sid, false)) ∧
    (snodeSweep ⟨w⟩ sid (SweepContext.BLACK ⟨w⟩)
      = some (SweepContext.BLACK ⟨w⟩, SweepAction.retained, false)) ∧
    (snodeSweep ⟨w⟩ sid RED = some (RED, SweepAction.deleted, true)) := by
  cases hw with
  | inl h => subst h; exact ⟨rfl, rfl, rfl⟩
  | inr h => subst h; exact ⟨rfl, rfl, rfl⟩

/-- Witness for `snode_sweep_protocol` at white = 0, node id 7. -/
theorem snode_sweep_protocol_witness :
    snodeSweep ⟨0⟩ 7 0 = some (RED, SweepAction.removedFromCtrie 7, false) ∧
    snodeSweep ⟨0⟩ 7 2 = some (2, SweepAction.retained, false) ∧
    snodeSweep ⟨0⟩ 7 3 = some (3, SweepAction.deleted, true) := by
  have h := snode_sweep_protocol 0 7 (Or.inl rfl)
  exact h

/-!
The Ctrie (`src/gch/ctrie.cpp`, namespace `_ctrie`), embedded
sequentially.  Heap objects are identified by `Nat` ids (`new SNode`
draws a fresh id).  Because the embedding is sequential, every CAS on an
I-node's `main` finds the value it loaded still installed and succeeds;
an I-node is therefore represented by the main node it currently holds,
and "CAS the I-node's main from `cn` to `ncn`" becomes returning `ncn`
as the updated subtree.  The collision list `LNode{sn, next}` is
represented as its head `sn` together with the list of the `sn` fields
of the `next` chain (`next == nullptr` is the empty list).
-/

/-- Payload of an interned-string `SNode` (ctrie.cpp:207-211 plus the
inherited `Object::color`): identity, `_hash`, the byte view `_data`,
and the color field. -/
structure SData where
  id : Nat
  _hash : Nat
  _data : List Nat
  color : Color
  deriving DecidableEq, Repr

/-- Lookup / insert key: `Query` is `{hash, view}` with the hash
precomputed by the caller. -/
structure Query where
  hash : Nat
  view : List Nat
  deriving DecidableEq, Repr

mutual
/-- Branch node of the Ctrie: an I-node (identified with its current
main node, see the section comment) or an S-node. -/
inductive BN where
  | inode (main : MN)
  | snode (s : SData)

/-- Main node of the Ctrie: a C-node (bitmap plus packed child array), a
T-node (tombstone wrapping one S-node), or an L-node collision chain. -/
inductive MN where
  | cnode (bmp : Nat) (array : List BN)
  | tnode (s : SData)
  | lnode (sn : SData) (next : List SData)
end

mutual
/-- Whether an L-node occurs anywhere in a main node. -/
def MN.hasLNode : MN → Bool
  | MN.cnode _ arr => hasLNodeList arr
  | MN.tnode _ => false
  | MN.lnode _ _ => true

/-- Whether an L-node occurs anywhere in a branch node. -/
def BN.hasLNode : BN → Bool
  | BN.inode m => MN.hasLNode m
  | BN.snode _ => false

/-- Whether an L-node occurs anywhere in a C-node child array. -/
def hasLNodeList : List BN → Bool
  | [] => false
  | b :: bs => BN.hasLNode b || hasLNodeList bs
end

/-- 64-bit population count, `__builtin_popcountll`. -/
def popcount (n : Nat) : Nat :=
  (List.range 64).countP (fun i => n.testBit i)

/-- Embedding of `CNode::flagpos` (ctrie.cpp:553-558): consume the six
hash bits at level `lev`; `flag` is the bitmap bit for the resulting
slot, `pos` the packed array index `popcount(bmp & (flag - 1))`. -/
def flagpos (hash lev bmp : Nat) : Nat × Nat :=
  let a := (hash >>> lev) &&& 63
  let flag := 1 <<< a
  (flag, popcount (bmp &&& (flag - 1)))

/-- Insertion into the packed child array at index `pos`, as
`CNode::inserted` does with its two `memcpy`s (ctrie.cpp:560-575); the
`shade_weak` calls are no-ops on S-node children and do not affect the
structure. -/
def listInsertAt (xs : List BN) (pos : Nat) (x : BN) : List BN :=
  xs.take pos ++ x :: xs.drop pos

/-- Recursion worker for `CNode::make`.  The source recurses on the
growing level with the guard `lev + 6 < 64`; so that the kernel can
evaluate the definition, the recursion is expressed structurally on the
remaining bit count `n = 64 - lev` (maintained by every call): the guard
`lev + 6 < 64` holds exactly when `n ≥ 7`, i.e. when `n` matches
`k + 7`, and then `64 - (lev + 6) = k + 1`.  `cnodeMake_eq` below
recovers the source-shaped unfolding. -/
def cnodeMakeGo (sn1 sn2 : SData) : Nat → Nat → MN
  | lev, n =>
      let a1 := (sn1._hash >>> lev) &&& 63
      let a2 := (sn2._hash >>> lev) &&& 63
      let flag1 := 1 <<< a1
      if a1 ≠ a2 then
        let flag2 := 1 <<< a2
        if a1 < a2 then
          MN.cnode (flag1 ||| flag2) [BN.snode sn1, BN.snode sn2]
        else
          MN.cnode (flag1 ||| flag2) [BN.snode sn2, BN.snode sn1]
      else
        match n with
        | k + 7 => MN.cnode flag1 [BN.inode (cnodeMakeGo sn1 sn2 (lev + 6) (k + 1))]
        | _ => MN.cnode flag1 [BN.inode (MN.lnode sn2 [sn1])]

/-- Embedding of `CNode::make` (ctrie.cpp:611-653).  At level `lev`
compare the two hashes' 6-bit slices: if they differ, build a two-entry
C-node discriminating the S-nodes (packed in slice order); if they agree
and `lev + 6 < 64`, build a singleton C-node over an I-node with a
recursive `make` at `lev + 6`; otherwise (the full 64-bit hashes
collide) build a singleton C-node over an I-node holding the two-element
L-chain `[sn2, sn1]`. -/
def cnodeMake (sn1 sn2 : SData) (lev : Nat) : MN :=
  cnodeMakeGo sn1 sn2 lev (64 - lev)

/-- Source-shaped unfolding of `cnodeMake`, matching the body of
`CNode::make` (ctrie.cpp:611-653) line by line. -/
theorem cnodeMake_eq (sn1 sn2 : SData) (lev : Nat) :
    cnodeMake sn1 sn2 lev =
      (let a1 := (sn1._hash >>> lev) &&& 63
       let a2 := (sn2._hash >>> lev) &&& 63
       let flag1 := 1 <<< a1
       if a1 ≠ a2 then
         let flag2 := 1 <<< a2
         if a1 < a2 then
           MN.cnode (flag1 ||| flag2) [BN.snode sn1, BN.snode sn2]
         else
           MN.cnode (flag1 ||| flag2) [BN.snode sn2, BN.snode sn1]
       else
         if lev + 6 < 64 then
           MN.cnode flag1 [BN.inode (cnodeMake sn1 sn2 (lev + 6))]
         else
           MN.cnode flag1 [BN.inode (MN.lnode sn2 [sn1])]) := by
  unfold cnodeMake
  rw [cnodeMakeGo.eq_def]
  dsimp only
  by_cases ha : ((sn1._hash >>> lev) &&& 63) ≠ ((sn2._hash >>> lev) &&& 63)
  · rw [if_pos ha, if_pos ha]
  · rw [if_neg ha, if_neg ha]
    by_cases hlev : lev + 6 < 64
    · rw [if_pos hlev]
      have hn : 64 - lev
          = (57 - lev).succ.succ.succ.succ.succ.succ.succ := by omega
      rw [hn]
      show MN.cnode _ [BN.inode (cnodeMakeGo sn1 sn2 (lev + 6) (57 - lev + 1))]
        = MN.cnode _ [BN.inode (cnodeMakeGo sn1 sn2 (lev + 6) (64 - (lev + 6)))]
      rw [show 57 - lev + 1 = 64 - (lev + 6) from by omega]
    · rw [if_neg hlev]
      have hn : 64 - lev ≤ 6 := by omega
      set n := 64 - lev with hdef
      interval_cases n <;> rfl

/-- Allocation-side state threaded through the sequential runs: the next
fresh object id, and the values of `global.alloc` (read by the `Object`
constructor when `new SNode` runs) and `global.white` (read by the weak
upgrade in `SNode::vinsertB`). -/
structure Alloc where
  fresh : Nat
  allocColor : Color
  whiteColor : Color
  deriving Repr

/-- Embedding of `new (q.view.size()) SNode(q)` (ctrie.cpp:207-211): a
fresh S-node carrying the query's hash and view, colored with the
current allocation color by the `Object` constructor (gc.hpp:304-307). -/
def newSNode (st : Alloc) (q : Query) : SData × Alloc :=
  (⟨st.fresh, q.hash, q.view, st.allocColor⟩, { st with fresh := st.fresh + 1 })

/-- Outcome of one descent: `Ctrie::Result` (OK with the returned S-node
pointer, or RESTART).  The NOTFOUND variant of the older header is not
used by `ctrie.cpp`, whose lookups return `{OK, nullptr}` on a miss. -/
inductive Res where
  | ok (v : Option SData)
  | restart
  deriving DecidableEq, Repr

/-- Embedding of `entomb` (ctrie.cpp:150-155): wrap a lone S-node in a
T-node. -/
def entomb (s : SData) : MN := MN.tnode s

/-- Embedding of `resurrect` (ctrie.cpp:112-114) as dispatched through
`vresurrectA`/`vresurrectB`: an S-node stays itself (ctrie.cpp:336-338);
an I-node whose main is a T-node collapses to the tombed S-node
(ctrie.cpp:373-375); any other I-node stays itself (ctrie.cpp:161). -/
def resurrect (b : BN) : BN :=
  match b with
  | BN.snode s => BN.snode s
  | BN.inode m =>
      match m with
      | MN.tnode s => BN.snode s
      | _ => BN.inode m

/-- Embedding of `toContracted` (ctrie.cpp:130-135): a C-node at a
nonzero level whose bitmap has a single entry contracts — to a T-node if
the lone child is an S-node (`SNode::vtoContractedB`, ctrie.cpp:340-343),
staying a C-node if it is an I-node (`INode::vtoContractedB`,
ctrie.cpp:197-199).  (With an empty array the source would read
`array[0]` out of bounds; such C-nodes only occur at level 0, where the
guard returns early.) -/
def toContracted (bmp : Nat) (arr : List BN) (lev : Nat) : MN :=
  if lev = 0 ∨ 1 < popcount bmp then
    MN.cnode bmp arr
  else
    match arr with
    | [BN.snode s] => entomb s
    | _ => MN.cnode bmp arr

/-- Embedding of `toCompressed` (ctrie.cpp:116-128): resurrect every
child (the `shade_weak` calls do not affect structure), then contract. -/
def toCompressed (bmp : Nat) (arr : List BN) (lev : Nat) : MN :=
  toContracted bmp (arr.map resurrect) lev

/-- Embedding of `LNode::lookup` (ctrie.cpp:408-417): walk the chain
comparing views. -/
def lnodeLookup (chain : List SData) (q : Query) : Res :=
  match chain with
  | [] => Res.ok none
  | s :: rest => if s._data = q.view then Res.ok (some s) else lnodeLookup rest q

/-- Replacement walk of `LNode::inserted` (ctrie.cpp:419-456): if some
cell's view equals the query's, the chain is copied up to that cell, the
cell is replaced by `nsn`, and the tail is shared; `none` if no view
matches. -/
def lchainReplaceFirst (q : Query) (nsn : SData) : List SData → Option (List SData)
  | [] => none
  | s :: rest =>
      if s._data = q.view then
        some (nsn :: rest)
      else
        (lchainReplaceFirst q nsn rest).map (fun c => s :: c)

/-- Embedding of `LNode::inserted` (ctrie.cpp:419-456): allocate the new
S-node; if the key exists in the chain, copy-and-replace it, otherwise
prepend a new cell. -/
def lnodeInserted (st : Alloc) (q : Query) (chain : List SData) :
    List SData × Alloc :=
  let r := newSNode st q
  match lchainReplaceFirst q r.1 chain with
  | some c => (c, r.2)
  | none => (r.1 :: chain, r.2)

/-- Embedding of `SNode::vinsertB` (ctrie.cpp:280-315), reached when the
slot `pos` of the C-node `(bmp, arr)` holds the S-node `s`.  If hash and
view match the query, attempt the weak upgrade — CAS the color from
`global.white` to `white ^ 2` — and, unless the observed color was RED,
return the existing node.  Otherwise allocate a fresh S-node and install
an updated C-node: for a genuinely different key, the slot becomes a new
I-node over `CNode::make(this, nsn, lev + 6)`; for a RED same-view node,
the slot is simply replaced by the fresh S-node.  The install CAS
succeeds in this sequential embedding. -/
def snodeVinsertB (st : Alloc) (q : Query) (lev : Nat) (bmp : Nat)
    (arr : List BN) (pos : Nat) (s : SData) : Res × MN × Alloc :=
  if s._hash = q.hash ∧ s._data = q.view then
    let upgraded : SData :=
      if s.color = st.whiteColor then
        { s with color := st.whiteColor ^^^ 2 }
      else s
    if s.color ≠ RED then
      (Res.ok (some upgraded),
       MN.cnode bmp (arr.set pos (BN.snode upgraded)), st)
    else
      let r := newSNode st q
      (Res.ok (some r.1), MN.cnode bmp (arr.set pos (BN.snode r.1)), r.2)
  else
    let r := newSNode st q
    (Res.ok (some r.1),
     MN.cnode bmp (arr.set pos (BN.inode (cnodeMake s r.1 (lev + 6)))), r.2)

/-- Embedding of `iinsert` (ctrie.cpp:730-732) dispatching through
`vinsertA`/`vinsertB` (sequential: every install CAS succeeds).  The
first argument is recursion fuel; the function returns the result, the
updated main node of the I-node it was called on, and the allocation
state.  Dispatch:

* C-node, empty slot (`CNode::vinsertA`, ctrie.cpp:664-679): install an
  updated C-node holding a fresh S-node and return it.
* C-node, slot holding an S-node: `SNode::vinsertB`.
* C-node, slot holding an I-node whose main is a T-node: the recursive
  call dispatches `TNode::vinsertA` (ctrie.cpp:363-366), which cleans
  this parent — its main is replaced by `toCompressed` (ctrie.cpp:137-139,
  695-700) — and restarts.
* C-node, slot holding any other I-node (`INode::vinsertB`,
  ctrie.cpp:183-186): recurse at `lev + 6` and reinstall the child's new
  main in place.
* L-node (`LNode::vinsertA`, ctrie.cpp:500-511): CAS in
  `inserted(q)` and return `{OK, nullptr}` — note the null payload.
* T-node at the root I-node cannot occur (`toContracted` never tombs at
  level 0); modelled as a plain restart.

An out-of-bounds `array[pos]` (impossible for C-nodes satisfying the
bitmap/popcount invariant, which all constructed C-nodes do) is modelled
as a restart; the runs below never take that branch. -/
def iinsert : Nat → Alloc → MN → Query → Nat → Res × MN × Alloc
  | 0, st, m, _, _ => (Res.restart, m, st)
  | fuel + 1, st, m, q, lev =>
      match m with
      | MN.tnode s => (Res.restart, MN.tnode s, st)
      | MN.lnode sn rest =>
          let r := lnodeInserted st q (sn :: rest)
          match r.1 with
          | nsn :: rest2 => (Res.ok none, MN.lnode nsn rest2, r.2)
          | [] => (Res.restart, MN.lnode sn rest, r.2)
      | MN.cnode bmp arr =>
          let fp := flagpos q.hash lev bmp
          if fp.1 &&& bmp = 0 then
            let r := newSNode st q
            (Res.ok (some r.1),
             MN.cnode (bmp ||| fp.1) (listInsertAt arr fp.2 (BN.snode r.1)),
             r.2)
          else
            match arr[fp.2]? with
            | none => (Res.restart, MN.cnode bmp arr, st)
            | some (BN.snode s) => snodeVinsertB st q lev bmp arr fp.2 s
            | some (BN.inode m2) =>
                match m2 with
                | MN.tnode _ => (Res.restart, toCompressed bmp arr lev, st)
                | _ =>
                    let r := iinsert fuel st m2 q (lev + 6)
                    (r.1, MN.cnode bmp (arr.set fp.2 (BN.inode r.2.1)), r.2.2)

/-- Embedding of `ilookup` (ctrie.cpp:720-722) dispatching through
`vlookupA`/`vlookupB`, mirroring `iinsert`: C-node miss returns
`{OK, nullptr}` (ctrie.cpp:655-658); a slot holding an S-node compares
views only (`SNode::vlookupB`, ctrie.cpp:272-278); a slot holding an
I-node over a T-node cleans the parent and restarts (`TNode::vlookupA`,
ctrie.cpp:358-361); an L-node walks the chain. -/
def ilookup : Nat → MN → Query → Nat → Res × MN
  | 0, m, _, _ => (Res.restart, m)
  | fuel + 1, m, q, lev =>
      match m with
      | MN.tnode s => (Res.restart, MN.tnode s)
      | MN.lnode sn rest => (lnodeLookup (sn :: rest) q, MN.lnode sn rest)
      | MN.cnode bmp arr =>
          let fp := flagpos q.hash lev bmp
          if fp.1 &&& bmp = 0 then
            (Res.ok none, MN.cnode bmp arr)
          else
            match arr[fp.2]? with
            | none => (Res.restart, MN.cnode bmp arr)
            | some (BN.snode s) =>
                if s._data = q.view then
                  (Res.ok (some s), MN.cnode bmp arr)
                else
                  (Res.ok none, MN.cnode bmp arr)
            | some (BN.inode m2) =>
                match m2 with
                | MN.tnode _ => (Res.restart, toCompressed bmp arr lev)
                | _ =>
                    let r := ilookup fuel m2 q (lev + 6)
                    (r.1, MN.cnode bmp (arr.set fp.2 (BN.inode r.2)))

/-- The Ctrie: its root I-node's current main node. -/
structure CtrieT where
  rootMain : MN

/-- Embedding of the `Ctrie` constructor (ctrie.cpp:748-750):
`root(new INode(new CNode))` — an empty C-node under the root I-node. -/
def emptyCtrie : CtrieT := ⟨MN.cnode 0 []⟩

/-- Embedding of `Ctrie::emplace` (ctrie.cpp:771-780): run `iinsert`
from the root at level 0; on RESTART retry (bounded here by fuel; the
source loops unconditionally).  The source then `assert(v2)`s that the
returned S-node is non-null and returns it. -/
def ctrieEmplace : Nat → Alloc → CtrieT → Query → Option SData × CtrieT × Alloc
  | 0, st, t, _ => (none, t, st)
  | fuel + 1, st, t, q =>
      let r := iinsert (fuel + 1) st t.rootMain q 0
      match r.1 with
      | Res.restart => ctrieEmplace fuel r.2.2 ⟨r.2.1⟩ q
      | Res.ok v => (v, ⟨r.2.1⟩, r.2.2)

/-- Embedding of `Ctrie::lookup` (ctrie.cpp:761-769): run `ilookup` from
the root at level 0, retrying on RESTART (bounded here by fuel). -/
def ctrieLookup : Nat → CtrieT → Query → Option SData × CtrieT
  | 0, t, _ => (none, t)
  | fuel + 1, t, q =>
      let r := ilookup (fuel + 1) t.rootMain q 0
      match r.1 with
      | Res.restart => ctrieLookup fuel ⟨r.2⟩ q
      | Res.ok v => (v, ⟨r.2⟩)

/-!
Sequential runs on the hash-collision path.  Three queries share the
64-bit hash 0 and have distinct one-byte views 97, 98, 99 ('a', 'b',
'c'); `Query.hash` is precomputed by the caller, so fully colliding
hashes are legitimate inputs.  The first emplace installs the S-node in
the root C-node; the second descends to `SNode::vinsertB`, which expands
through `CNode::make` into a chain of singleton C-nodes ending in the
two-element L-chain at level 60; the third reaches that L-chain and
inserts through `LNode::vinsertA`.  The initial allocation state has
fresh id 1 and `alloc = white = 0`. -/
def collisionQueryA : Query := ⟨0, [97]⟩

/-- Second query of the collision scenario (same hash, view 'b'). -/
def collisionQueryB : Query := ⟨0, [98]⟩

/-- Third query of the collision scenario (same hash, view 'c'). -/
def collisionQueryC : Query := ⟨0, [99]⟩

/-- Initial allocation state of the collision scenario. -/
def collisionState0 : Alloc := ⟨1, 0, 0⟩

/-- First emplace of the collision scenario. -/
def collisionStep1 : Option SData × CtrieT × Alloc :=
  ctrieEmplace 64 collisionState0 emptyCtrie collisionQueryA

/-- Second emplace of the collision scenario (creates the L-chain). -/
def collisionStep2 : Option SData × CtrieT × Alloc :=
  ctrieEmplace 64 collisionStep1.2.2 collisionStep1.2.1 collisionQueryB

/-- Third emplace of the collision scenario (inserts into the L-chain
through `LNode::vinsertA`). -/
def collisionStep3 : Option SData × CtrieT × Alloc :=
  ctrieEmplace 64 collisionStep2.2.2 collisionStep2.2.1 collisionQueryC

/-- C2: on the hash-collision path `Ctrie::emplace` returns null, not a
pointer to an S-node with the query's view.  The first two emplaces do
return the S-nodes they installed (ids 1 and 2), but the third lands in
the L-chain, where `LNode::vinsertA` (ctrie.cpp:500-511) returns
`{OK, nullptr}` even though it successfully prepended the new S-node —
which a subsequent lookup finds (id 3, view 'c').  `Ctrie::emplace`'s
own `assert(v2)` (ctrie.cpp:777) documents that a non-null result was
intended, so the claim is right and the code is wrong. -/
theorem emplace_lchain_null_code_bug :
    collisionStep1.1 = some ⟨1, 0, [97], 0⟩ ∧
    collisionStep2.1 = some ⟨2, 0, [98], 0⟩ ∧
    collisionStep3.1 = none ∧
    (ctrieLookup 64 collisionStep3.2.1 collisionQueryC).1
      = some ⟨3, 0, [99], 0⟩ := by
  refine ⟨?_, ?_, ?_, ?_⟩ <;> decide

/-- C8: `lookup(q)` immediately after `emplace(q)` does not always
return the S pointer `emplace` returned, even with no garbage collection
and no other Ctrie operation in between: after the third collision-path
emplace — which installed S-node id 3 but returned null through
`LNode::vinsertA` (ctrie.cpp:507) — the immediately following
`lookup` of the same query returns the installed S-node id 3, which is
not the value `emplace` returned.  The failure is the same null-return
bug that `Ctrie::emplace`'s `assert(v2)` (ctrie.cpp:777) documents. -/
theorem lookup_after_emplace_code_bug :
    (ctrieLookup 64 collisionStep3.2.1 collisionQueryC).1 ≠ collisionStep3.1 ∧
    collisionStep3.1 = none ∧
    (ctrieLookup 64 collisionStep3.2.1 collisionQueryC).1
      = some ⟨3, 0, [99], 0⟩ := by
  refine ⟨?_, ?_, ?_⟩ <;> decide

/-!
The expansion threshold (`CNode::make`).  The spec places the switch to
a collision list at `lev + 6 >= 60`; the code switches at
`lev + 6 < 64` failing, i.e. only once the full 64-bit hash is consumed
(ctrie.cpp:634).  The scenario: 'a' with hash `0` and 'b' with hash
`2^54` collide on bits 0..53, so after two emplaces the trie
discriminates them in a C-node at level 54; inserting 'e' with hash
`2^60` (colliding with 'a' on bits 0..59) then reaches that C-node's
slot 0, finds the S-node 'a' with a different view at `lev = 54`, and
calls `CNode::make` at `lev + 6 = 60`. -/
def deepQueryA : Query := ⟨0, [97]⟩

/-- Second query of the deep scenario ('b', hash `2^54`). -/
def deepQueryB : Query := ⟨2 ^ 54, [98]⟩

/-- Third query of the deep scenario ('e', hash `2^60`, agreeing with
'a' on bits 0..59). -/
def deepQueryE : Query := ⟨2 ^ 60, [101]⟩

/-- Initial allocation state of the deep scenario. -/
def deepState0 : Alloc := ⟨1, 0, 0⟩

/-- First emplace of the deep scenario. -/
def deepStep1 : Option SData × CtrieT × Alloc :=
  ctrieEmplace 64 deepState0 emptyCtrie deepQueryA

/-- Second emplace of the deep scenario (builds the C-node chain down to
level 54). -/
def deepStep2 : Option SData × CtrieT × Alloc :=
  ctrieEmplace 64 deepStep1.2.2 deepStep1.2.1 deepQueryB

/-- Third emplace of the deep scenario: `SNode::vinsertB` at level 54,
`CNode::make` at level 60. -/
def deepStep3 : Option SData × CtrieT × Alloc :=
  ctrieEmplace 64 deepStep2.2.2 deepStep2.2.1 deepQueryE

/-- C3 counterexample: an insert that finds an S-node with a different
view at `lev = 54` — so `lev + 6 = 60 ≥ 60` and the claim requires an
L-chain — does not build one.  The third deep-scenario emplace calls
`CNode::make(a-node, e-node, 60)`, which discriminates the two hashes'
bits 60..63 (0 versus 1) into a two-entry C-node; the resulting trie
contains no L-node anywhere, and both keys stay retrievable through that
C-node. -/
theorem make_threshold_counterexample :
    deepStep3.1 = some ⟨3, 2 ^ 60, [101], 0⟩ ∧
    cnodeMake ⟨1, 0, [97], 0⟩ ⟨3, 2 ^ 60, [101], 0⟩ 60
      = MN.cnode 3 [BN.snode ⟨1, 0, [97], 0⟩, BN.snode ⟨3, 2 ^ 60, [101], 0⟩] ∧
    MN.hasLNode deepStep3.2.1.rootMain = false ∧
    (ctrieLookup 64 deepStep3.2.1 deepQueryE).1 = some ⟨3, 2 ^ 60, [101], 0⟩ ∧
    (ctrieLookup 64 deepStep3.2.1 deepQueryA).1 = some ⟨1, 0, [97], 0⟩ := by
  refine ⟨by decide, by rfl, by decide, by decide, by decide⟩

theorem cnodeMake_of_ne (s1 s2 : SData) (lev : Nat)
    (ha : ((s1._hash >>> lev) &&& 63) ≠ ((s2._hash >>> lev) &&& 63)) :
    cnodeMake s1 s2 lev =
      if ((s1._hash >>> lev) &&& 63) < ((s2._hash >>> lev) &&& 63) then
        MN.cnode ((1 <<< ((s1._hash >>> lev) &&& 63)) |||
            (1 <<< ((s2._hash >>> lev) &&& 63)))
          [BN.snode s1, BN.snode s2]
      else
        MN.cnode ((1 <<< ((s1._hash >>> lev) &&& 63)) |||
            (1 <<< ((s2._hash >>> lev) &&& 63)))
          [BN.snode s2, BN.snode s1] := by
  rw [cnodeMake_eq]
  exact if_pos ha

theorem cnodeMake_of_eq_rec (s1 s2 : SData) (lev : Nat)
    (ha : ((s1._hash >>> lev) &&& 63) = ((s2._hash >>> lev) &&& 63))
    (hlev : lev + 6 < 64) :
    cnodeMake s1 s2 lev =
      MN.cnode (1 <<< ((s1._hash >>> lev) &&& 63))
        [BN.inode (cnodeMake s1 s2 (lev + 6))] := by
  rw [cnodeMake_eq]
  dsimp only
  rw [if_neg (by exact fun h => h ha), if_pos hlev]

theorem cnodeMake_of_eq_term (s1 s2 : SData) (lev : Nat)
    (ha : ((s1._hash >>> lev) &&& 63) = ((s2._hash >>> lev) &&& 63))
    (hlev : ¬lev + 6 < 64) :
    cnodeMake s1 s2 lev =
      MN.cnode (1 <<< ((s1._hash >>> lev) &&& 63))
        [BN.inode (MN.lnode s2 [s1])] := by
  rw [cnodeMake_eq]
  dsimp only
  rw [if_neg (by exact fun h => h ha), if_neg hlev]

theorem hasLNode_two_snode (b : Nat) (x y : SData) :
    MN.hasLNode (MN.cnode b [BN.snode x, BN.snode y]) = false := rfl

theorem hasLNode_singleton_inode (b : Nat) (m : MN) :
    MN.hasLNode (MN.cnode b [BN.inode m]) = MN.hasLNode m := by
  show (MN.hasLNode m || false) = MN.hasLNode m
  exact Bool.or_false _

theorem and63_eq_mod (x : Nat) : x &&& 63 = x % 64 := by
  have h := Nat.and_pow_two_sub_one_eq_mod x 6
  norm_num at h
  exact h

theorem shiftRight_add6 (x lev : Nat) : x >>> (lev + 6) = (x >>> lev) / 64 := by
  rw [Nat.shiftRight_add, Nat.shiftRight_eq_div_pow]

theorem shiftRight_eq_zero_of_le (x lev : Nat) (hx : x < 2 ^ 64)
    (hlev : 64 ≤ lev) : x >>> lev = 0 := by
  rw [Nat.shiftRight_eq_div_pow]
  exact Nat.div_eq_of_lt
    (lt_of_lt_of_le hx (Nat.pow_le_pow_right (by norm_num) hlev))

theorem make_hasLNode_aux (s1 s2 : SData)
    (h1 : s1._hash < 2 ^ 64) (h2 : s2._hash < 2 ^ 64) :
    ∀ (n lev : Nat), 64 - lev ≤ n →
      (MN.hasLNode (cnodeMake s1 s2 lev) = true ↔
        s1._hash >>> lev = s2._hash >>> lev) := by
  intro n
  induction n with
  | zero =>
      intro lev hn
      have hlev : 64 ≤ lev := by omega
      have e1 : s1._hash >>> lev = 0 := shiftRight_eq_zero_of_le _ _ h1 hlev
      have e2 : s2._hash >>> lev = 0 := shiftRight_eq_zero_of_le _ _ h2 hlev
      rw [cnodeMake_of_eq_term s1 s2 lev (by rw [e1, e2]) (by omega)]
      rw [hasLNode_singleton_inode]
      constructor
      · intro _
        rw [e1, e2]
      · intro _
        rfl
  | succ n ih =>
      intro lev hn
      by_cases ha : ((s1._hash >>> lev) &&& 63) = ((s2._hash >>> lev) &&& 63)
      · by_cases hlev : lev + 6 < 64
        · rw [cnodeMake_of_eq_rec s1 s2 lev ha hlev, hasLNode_singleton_inode]
          rw [ih (lev + 6) (by omega)]
          rw [shiftRight_add6, shiftRight_add6]
          rw [and63_eq_mod, and63_eq_mod] at ha
          omega
        · rw [cnodeMake_of_eq_term s1 s2 lev ha hlev, hasLNode_singleton_inode]
          have e1 : s1._hash >>> (lev + 6) = 0 :=
            shiftRight_eq_zero_of_le _ _ h1 (by omega)
          have e2 : s2._hash >>> (lev + 6) = 0 :=
            shiftRight_eq_zero_of_le _ _ h2 (by omega)
          rw [shiftRight_add6] at e1 e2
          rw [and63_eq_mod, and63_eq_mod] at ha
          constructor
          · intro _
            omega
          · intro _
            rfl
      · rw [cnodeMake_of_ne s1 s2 lev ha]
        constructor
        · intro habs
          by_cases hlt : ((s1._hash >>> lev) &&& 63) < ((s2._hash >>> lev) &&& 63)
          · rw [if_pos hlt, hasLNode_two_snode] at habs
            exact absurd habs (by decide)
          · rw [if_neg hlt, hasLNode_two_snode] at habs
            exact absurd habs (by decide)
        · intro heq
          exact absurd (by rw [heq]) ha

/-- C3 amended: when an insert finds the slot occupied by an S-node with
a different view, it installs a new I-node whose child is
`CNode::make(existing, fresh, lev + 6)`; `make` discriminates the two
S-nodes into a two-entry C-node at the first level at or above `lev + 6`
where their 6-bit hash slices differ, and builds an L-chain (under a
further I-node inside a singleton C-node) only when no such level
exists — i.e. exactly when the two 64-bit hashes agree on every bit at
or above position `lev + 6` (`hash1 >>> (lev+6) = hash2 >>> (lev+6)`),
which is what the code's `lev + 6 < 64` guard bottoms out on; the
spec's `lev + 6 >= 60` threshold is not where the switch happens. -/
theorem make_discrimination_amended (s1 s2 : SData) (lev : Nat)
    (h1 : s1._hash < 2 ^ 64) (h2 : s2._hash < 2 ^ 64) :
    (MN.hasLNode (cnodeMake s1 s2 lev) = true ↔
      s1._hash >>> lev = s2._hash >>> lev) ∧
    (((s1._hash >>> lev) &&& 63) ≠ ((s2._hash >>> lev) &&& 63) →
      cnodeMake s1 s2 lev =
        if ((s1._hash >>> lev) &&& 63) < ((s2._hash >>> lev) &&& 63) then
          MN.cnode ((1 <<< ((s1._hash >>> lev) &&& 63)) |||
              (1 <<< ((s2._hash >>> lev) &&& 63)))
            [BN.snode s1, BN.snode s2]
        else
          MN.cnode ((1 <<< ((s1._hash >>> lev) &&& 63)) |||
              (1 <<< ((s2._hash >>> lev) &&& 63)))
            [BN.snode s2, BN.snode s1]) := by
  exact ⟨make_hasLNode_aux s1 s2 h1 h2 (64 - lev) lev le_rfl,
    cnodeMake_of_ne s1 s2 lev⟩

/-- Witness for `make_discrimination_amended`: hashes 0 and 1 at level 0
differ in their first slice, so `make` discriminates at level 0 and
builds no L-chain; hashes 0 and `2^60` at level 54 agree on slice 9 but
differ above, so no L-chain either; hashes that agree from the level on
(both 0 at level 58) give the L-chain. -/
theorem make_discrimination_amended_witness :
    MN.hasLNode (cnodeMake ⟨1, 0, [97], 0⟩ ⟨2, 1, [98], 0⟩ 0) = false ∧
    cnodeMake ⟨1, 0, [97], 0⟩ ⟨2, 1, [98], 0⟩ 0
      = MN.cnode 3 [BN.snode ⟨1, 0, [97], 0⟩, BN.snode ⟨2, 1, [98], 0⟩] ∧
    MN.hasLNode (cnodeMake ⟨1, 0, [97], 0⟩ ⟨3, 2 ^ 60, [101], 0⟩ 54) = false ∧
    MN.hasLNode (cnodeMake ⟨1, 0, [97], 0⟩ ⟨2, 0, [98], 0⟩ 58) = true := by
  have hab := make_discrimination_amended ⟨1, 0, [97], 0⟩ ⟨2, 1, [98], 0⟩ 0
    (by norm_num) (by norm_num)
  have hae := make_discrimination_amended ⟨1, 0, [97], 0⟩ ⟨3, 2 ^ 60, [101], 0⟩ 54
    (by norm_num) (by norm_num)
  have hcol := make_discrimination_amended ⟨1, 0, [97], 0⟩ ⟨2, 0, [98], 0⟩ 58
    (by norm_num) (by norm_num)
  refine ⟨?_, ?_, ?_, ?_⟩
  · exact Bool.eq_false_iff.mpr (fun ht => absurd (hab.1.mp ht) (by decide))
  · rw [hab.2 (by decide)]
    rfl
  · exact Bool.eq_false_iff.mpr (fun ht => absurd (hae.1.mp ht) (by decide))
  · exact hcol.1.mpr (by decide)

end Gch
